import Mathlib

/-!
Verification of the asset-pool / slideshow-session / renderer core of the
`immich_slideshow` Home Assistant integration
(`custom_components/immich_slideshow/image.py`), shallowly embedded in Lean.

Modelling conventions:
* Python dict-shaped asset records are flattened into the `Asset` structure,
  keeping exactly the fields the verified code reads (`id`,
  `originalWidth`, `originalHeight`, `exifInfo["orientation"]`).
* The EXIF orientation value can reach `is_portrait` as a missing field, an
  int, or a string; the code maps every falsy or unparseable value to `0`
  (`int(orientation) if orientation else 0`, with `ValueError`/`TypeError`
  caught).  It is modelled as `Option Int`: `none` stands for all the paths
  that produce `0`, `some n` for a successfully parsed integer (note that a
  Python value `0` is falsy and also yields `0`, matching `Option.getD 0`).
* PIL images are modelled by their pixel dimensions (`PImg`); `Image.crop`
  returns an image of exactly the requested box size, `Image.new` a canvas of
  the requested size, and `paste` records which image was pasted where
  (`Canvas`).  JPEG encoding is identity on this model (byte streams carry no
  information the claims mention beyond the rendered geometry).
* Python float arithmetic inside `_resize_and_center_crop` is modelled by
  exact rational arithmetic (`ℚ`), with the literal `0.3` as `3/10`;
  `int(x)` on a float truncates toward zero (`pyTrunc`), `//` on ints is
  floor division (`Int.fdiv`).
* `int(self._mix_ratio * fetch_count / 100)` in `_refill_pool` divides
  integers `mix_ratio * fetch_count ≤ 100 * 100` by `100` in double
  precision and truncates; for operands of this size the truncated double
  quotient coincides with mathematical floor, i.e. with `Nat` division,
  which is how it is embedded.
* All remote calls (`get_memory_assets`, `search_random_recent`,
  `get_asset_info`, `download_asset`), `random.shuffle`, and PIL decoding
  are nondeterministic effects; each refill / refresh consumes an explicit
  environment (`RefillEnv`, `RefreshEnv`) recording what every call site
  returned, so the definitions are ordinary functions of state plus
  environment.  A `download_asset`+decode call site is an
  `Option (Option PImg)`: `none` = no bytes were returned, `some none` =
  bytes whose decode/`exif_transpose`/`convert` raised (the exception is
  caught by the surrounding `try`), `some (some img)` = a decoded image.
-/

namespace ImmichSlideshow

/-- `MAX_POOL_SIZE` (image.py line 22): maximum assets to keep in pool. -/
def MAX_POOL_SIZE : Nat := 200

/-- `REFILL_THRESHOLD` (image.py line 23): refill when pool drops below this. -/
def REFILL_THRESHOLD : Nat := 20

/-- `POOL_FETCH_SIZE` (image.py line 24): number of assets to fetch per refill. -/
def POOL_FETCH_SIZE : Nat := 100

/-- One enriched asset record (a Python dict in the source, flattened to the
fields the pool/render core reads). -/
structure Asset where
  id : Nat
  originalWidth : Nat
  originalHeight : Nat
  orientation : Option Int
deriving DecidableEq

/-- `is_portrait` (image.py lines 517-537): portrait after accounting for the
EXIF orientation code; codes 5-8 swap the axes; zero dimensions are never
portrait. -/
def is_portrait (a : Asset) : Bool :=
  let orientation_int : Int := a.orientation.getD 0
  let rotated : Bool :=
    orientation_int == 5 || orientation_int == 6 ||
    orientation_int == 7 || orientation_int == 8
  if 0 < a.originalWidth ∧ 0 < a.originalHeight then
    if rotated then decide (a.originalHeight < a.originalWidth)
    else decide (a.originalWidth < a.originalHeight)
  else false

/-- Modelled from the spec's words for claim C6: whether the EXIF orientation
code indicates a 90° stored rotation (codes 5-8). -/
def specRotated (a : Asset) : Bool :=
  a.orientation.getD 0 == 5 || a.orientation.getD 0 == 6 ||
  a.orientation.getD 0 == 7 || a.orientation.getD 0 == 8

/-- Modelled from the spec's words for claim C6: effective width after
swapping the axes for rotation codes 5-8. -/
def specEffectiveWidth (a : Asset) : Nat :=
  if specRotated a then a.originalHeight else a.originalWidth

/-- Modelled from the spec's words for claim C6: effective height after
swapping the axes for rotation codes 5-8. -/
def specEffectiveHeight (a : Asset) : Nat :=
  if specRotated a then a.originalWidth else a.originalHeight

/-- A PIL image, modelled by its pixel dimensions. -/
structure PImg where
  w : Nat
  h : Nat
deriving DecidableEq

/-- Python `int(x)` on a float/rational: truncation toward zero. -/
def pyTrunc (q : ℚ) : Int :=
  if 0 ≤ q then ⌊q⌋ else ⌈q⌉

/-- `PIL.Image.resize((w, h))`: the result has exactly the requested size. -/
def pilResize (_img : PImg) (w h : Int) : PImg :=
  ⟨w.toNat, h.toNat⟩

/-- `PIL.Image.crop((l, t, r, b))`: the result has exactly the box size
`(r - l, b - t)` (PIL pads when the box leaves the source). -/
def pilCrop (_img : PImg) (l t r b : Int) : PImg :=
  ⟨(r - l).toNat, (b - t).toNat⟩

/-- The scale factor `_resize_and_center_crop` computes (image.py lines
487-494): `target_h / src_h` when `src_ratio > target_ratio`, else
`target_w / src_w`. -/
def rccScale (img : PImg) (target_w target_h : Nat) : ℚ :=
  let target_ratio : ℚ := (target_w : ℚ) / (target_h : ℚ)
  let src_ratio : ℚ := (img.w : ℚ) / (img.h : ℚ)
  if target_ratio < src_ratio then (target_h : ℚ) / (img.h : ℚ)
  else (target_w : ℚ) / (img.w : ℚ)

/-- `new_w = int(src_w * scale)` (image.py line 496). -/
def rccNewW (img : PImg) (target_w target_h : Nat) : Int :=
  pyTrunc ((img.w : ℚ) * rccScale img target_w target_h)

/-- `new_h = int(src_h * scale)` (image.py line 497). -/
def rccNewH (img : PImg) (target_w target_h : Nat) : Int :=
  pyTrunc ((img.h : ℚ) * rccScale img target_w target_h)

/-- `left = (new_w - target_w) // 2` (image.py line 500). -/
def rccLeft (img : PImg) (target_w target_h : Nat) : Int :=
  Int.fdiv (rccNewW img target_w target_h - target_w) 2

/-- `top = int((new_h - target_h) * 0.3)` (image.py line 501). -/
def rccTop (img : PImg) (target_w target_h : Nat) : Int :=
  pyTrunc (((rccNewH img target_w target_h - target_h : Int) : ℚ) * (3 / 10))

/-- `_resize_and_center_crop` (image.py lines 483-505): cover-scale, then crop
to exactly the target box, horizontally centered, top at 30% of the vertical
overflow. -/
def resize_and_center_crop (img : PImg) (target_w target_h : Nat) : PImg :=
  let new_w := rccNewW img target_w target_h
  let new_h := rccNewH img target_w target_h
  let img_scaled := pilResize img new_w new_h
  let left := rccLeft img target_w target_h
  let top := rccTop img target_w target_h
  let right := left + target_w
  let bottom := top + target_h
  pilCrop img_scaled left top right bottom

/-- `_resize_and_encode` (image.py lines 507-514); JPEG encoding is identity
on the dimension model. -/
def resize_and_encode (img : PImg) (target_w target_h : Nat) : PImg :=
  resize_and_center_crop img target_w target_h

/-- A canvas produced by `Image.new` plus a record of every `paste`
(pasted image, x, y) in call order. -/
structure Canvas where
  w : Nat
  h : Nat
  pastes : List (PImg × Int × Int)
deriving DecidableEq

/-- `Image.new("RGB", (w, h))`. -/
def pilNew (w h : Nat) : Canvas :=
  ⟨w, h, []⟩

/-- `canvas.paste(img, (x, y))`. -/
def pilPaste (c : Canvas) (img : PImg) (x y : Int) : Canvas :=
  { c with pastes := c.pastes ++ [(img, x, y)] }

/-- `_compose_side_by_side` (image.py lines 462-481): two halves of width
`target_w // 2`, each resize-and-center-cropped, pasted at x=0 and
x=half_w into a fresh (target_w, target_h) canvas. -/
def compose_side_by_side (img1 img2 : PImg) (target_w target_h : Nat) : Canvas :=
  let half_w := target_w / 2
  let img1_resized := resize_and_center_crop img1 half_w target_h
  let img2_resized := resize_and_center_crop img2 half_w target_h
  let result := pilNew target_w target_h
  let result := pilPaste result img1_resized 0 0
  let result := pilPaste result img2_resized (half_w : Int) 0
  result

/-- The loop body of `_pop_from_pool` (image.py lines 428-448), with the
remaining budget `count - len(result)` threaded explicitly: while the budget
is positive, a record satisfying the predicate goes to the result, any other
record to the remaining list; once the budget is exhausted everything left
goes to the remaining list. -/
def popAux (p : Asset → Bool) : Nat → List Asset → List Asset × List Asset
  | _, [] => ([], [])
  | 0, l => ([], l)
  | k + 1, a :: rest =>
    if p a then
      let r := popAux p k rest
      (a :: r.1, r.2)
    else
      let r := popAux p (k + 1) rest
      (r.1, a :: r.2)

/-- `_pop_from_pool(count, portrait_only)` as a pure function from the pool:
returns (popped records, remaining pool).  `portrait_only = false` pops any
record (the loop's predicate-free branch), `portrait_only = true` pops only
records for which `is_portrait` holds. -/
def pop_from_pool (pool : List Asset) (count : Nat) (portrait_only : Bool) :
    List Asset × List Asset :=
  popAux (if portrait_only then is_portrait else fun _ => true) count pool

/-- A sequence of `_pop_from_pool` calls on the same pool instance: returns
the list of popped batches and the final pool. -/
def popMany (pool : List Asset) : List (Nat × Bool) → List (List Asset) × List Asset
  | [] => ([], pool)
  | (c, b) :: ops =>
    let r := pop_from_pool pool c b
    let rest := popMany r.2 ops
    (r.1 :: rest.1, rest.2)

/-- The configuration the manager is constructed with (image.py lines 59-84). -/
structure Config where
  days : Int
  dualPortrait : Bool
  memoryYears : Nat
  mixRatio : Nat
  favoritesFilter : String

/-- What the remote calls inside one `_refill_pool` invocation return
(image.py lines 353-426):
* `memAssets`: the result of `get_memory_assets(max_years)`;
* `recentAssets`: the result of `search_random_recent` as a function of the
  requested `count` (`days` and the favorites filter are fixed by the
  configuration for the whole call);
* `shuffleMem`, `shuffleAll`, `shuffleEnriched`: the three `random.shuffle`
  calls, as oracles on lists;
* `enrich`: the per-asset `get_asset_info` enrichment under the concurrency
  semaphore — `none` when the detail fetch failed (the asset is dropped),
  `some a'` the enriched record.  `asyncio.gather` preserves list order, so
  enrichment is order-preserving `filterMap`. -/
structure RefillEnv where
  memAssets : List Asset
  recentAssets : Nat → List Asset
  shuffleMem : List Asset → List Asset
  shuffleAll : List Asset → List Asset
  shuffleEnriched : List Asset → List Asset
  enrich : Asset → Option Asset

/-- The request parameters one `_refill_pool` invocation computed:
`fetchCount = min(POOL_FETCH_SIZE, MAX_POOL_SIZE - current_size)` (an `Int`,
negative when the pool is over capacity), the memory slot count
`memory_count`, whether `get_memory_assets` was called, and the `count`
passed to `search_random_recent` (0 when recent search was not called). -/
structure RefillTrace where
  fetchCount : Int
  memCount : Nat
  memRequested : Bool
  recentRequested : Nat
deriving DecidableEq

/-- `fetch_count = min(POOL_FETCH_SIZE, MAX_POOL_SIZE - current_size)`
(image.py lines 362-364), as a Python int (negative when the pool is over
capacity). -/
def fetchCountOf (pool : List Asset) : Int :=
  min (POOL_FETCH_SIZE : Int) ((MAX_POOL_SIZE : Int) - (pool.length : Int))

/-- `memory_count = int(self._mix_ratio * fetch_count / 100)` (image.py line
369); for `mix_ratio * fetch_count ≤ 10000` the truncated double quotient is
exact `Nat` division (see the header). -/
def memCountOf (cfg : Config) (pool : List Asset) : Nat :=
  cfg.mixRatio * (fetchCountOf pool).toNat / 100

/-- The memory assets kept by one refill (image.py lines 372-378): fetched
only when `memory_count > 0`, shuffled, truncated to `memory_count`. -/
def memAssetsOf (cfg : Config) (env : RefillEnv) (pool : List Asset) :
    List Asset :=
  if 0 < memCountOf cfg pool then
    (env.shuffleMem env.memAssets).take (memCountOf cfg pool)
  else []

/-- `recent_count = fetch_count - len(memory_assets)` (image.py line 382). -/
def recentCountOf (cfg : Config) (env : RefillEnv) (pool : List Asset) : Nat :=
  (fetchCountOf pool).toNat - (memAssetsOf cfg env pool).length

/-- The recent assets fetched by one refill (image.py lines 383-390):
fetched only when `recent_count > 0`. -/
def recentAssetsOf (cfg : Config) (env : RefillEnv) (pool : List Asset) :
    List Asset :=
  if 0 < recentCountOf cfg env pool then
    env.recentAssets (recentCountOf cfg env pool)
  else []

/-- The combined and shuffled candidate list (image.py lines 392-394). -/
def assetsOf (cfg : Config) (env : RefillEnv) (pool : List Asset) :
    List Asset :=
  env.shuffleAll (memAssetsOf cfg env pool ++ recentAssetsOf cfg env pool)

/-- The request trace of a refill that found space: `fetch_count`, the
memory slot count, whether memories were fetched (`memory_count > 0`), and
the `count` passed to `search_random_recent` (the search is only performed
when it is positive; a recorded 0 means it was not called). -/
def traceOf (cfg : Config) (env : RefillEnv) (pool : List Asset) :
    RefillTrace :=
  ⟨fetchCountOf pool, memCountOf cfg pool,
   decide (0 < memCountOf cfg pool), recentCountOf cfg env pool⟩

/-- The shuffled enrichment result (image.py lines 400-421): `get_asset_info`
under the concurrency semaphore, assets whose detail fetch failed dropped,
order preserved by `asyncio.gather`, then one more shuffle. -/
def enrichedOf (cfg : Config) (env : RefillEnv) (pool : List Asset) :
    List Asset :=
  env.shuffleEnriched ((assetsOf cfg env pool).filterMap env.enrich)

/-- `_refill_pool` (image.py lines 353-426), returning the new pool together
with the trace of requested counts.  Mirrors the source line by line:
early return when `fetch_count <= 0`; memories fetched, shuffled and
truncated to `memory_count` when `memory_count > 0`; recent search asked for
`fetch_count - len(memory_assets)` when that is positive; combined list
shuffled; early return when it is empty; enrichment drops failed assets; the
enriched list is shuffled, appended to the pool, and the pool truncated to
`MAX_POOL_SIZE` when it exceeds it. -/
def refill_pool (cfg : Config) (env : RefillEnv) (pool : List Asset) :
    List Asset × RefillTrace :=
  if fetchCountOf pool ≤ 0 then
    (pool, ⟨fetchCountOf pool, 0, false, 0⟩)
  else if (assetsOf cfg env pool).isEmpty then
    (pool, traceOf cfg env pool)
  else if MAX_POOL_SIZE < (pool ++ enrichedOf cfg env pool).length then
    ((pool ++ enrichedOf cfg env pool).take MAX_POOL_SIZE,
     traceOf cfg env pool)
  else (pool ++ enrichedOf cfg env pool, traceOf cfg env pool)

/-- A sequence of `_refill_pool` calls, one environment per call. -/
def refillMany (cfg : Config) : List RefillEnv → List Asset → List Asset
  | [], pool => pool
  | e :: envs, pool => refillMany cfg envs (refill_pool cfg e pool).1

/-- What the remote calls inside one `_do_refresh` invocation return: the
refill environment plus the outcome of each `download_asset`+decode call
site (`dual1`/`dual2` for the two downloads of the dual-portrait attempt,
`single` for the single-image download of the chosen asset). -/
structure RefreshEnv where
  refill : RefillEnv
  dual1 : Option (Option PImg)
  dual2 : Option (Option PImg)
  single : Option (Option PImg)

/-- The mutable state of `SlideshowManager` that the pool/render core reads
and writes (image.py lines 85-96). -/
structure SlideshowState where
  assetPool : List Asset
  currentImg1 : Option PImg
  currentImg2 : Option PImg
  isDual : Bool
  currentAsset1 : Option Asset
  currentAsset2 : Option Asset
  poolEmpty : Bool
deriving DecidableEq

/-- `is_available` (image.py lines 257-260): `not self._pool_empty`. -/
def is_available (s : SlideshowState) : Bool :=
  !s.poolEmpty

/-- The single-image tail of `_do_refresh` (image.py lines 334-351): download
the chosen asset, fail on missing bytes, decode inside `try`, fail on a
decode exception, otherwise commit the image as a single (non-dual) load. -/
def singleTail (env : RefreshEnv) (s : SlideshowState) : SlideshowState × Bool :=
  match env.single with
  | none => (s, false)
  | some none => (s, false)
  | some (some img) =>
    ({ s with currentImg1 := some img, currentImg2 := none, isDual := false },
     true)

/-- `_do_refresh` (image.py lines 267-351): close the previous images, refill
when the pool is below `REFILL_THRESHOLD`, fail (marking the pool empty) when
the pool is still empty, otherwise pop one record,  attempt a dual-portrait
load when enabled and the record is portrait, and fall back to the
single-image tail on any dual failure. -/
def do_refresh (cfg : Config) (env : RefreshEnv) (s : SlideshowState) :
    SlideshowState × Bool :=
  let s := { s with currentImg1 := none, currentImg2 := none }
  let pool :=
    if s.assetPool.length < REFILL_THRESHOLD then
      (refill_pool cfg env.refill s.assetPool).1
    else s.assetPool
  let s := { s with assetPool := pool }
  if pool.isEmpty then ({ s with poolEmpty := true }, false)
  else
    let s := { s with poolEmpty := false }
    let popped := pop_from_pool pool 1 false
    let s := { s with assetPool := popped.2 }
    match popped.1 with
    | [] => (s, false)
    | chosen :: _ =>
      let s := { s with currentAsset1 := some chosen, currentAsset2 := none }
      if cfg.dualPortrait && is_portrait chosen then
        let second := pop_from_pool s.assetPool 1 true
        let s := { s with assetPool := second.2 }
        match second.1 with
        | sec :: _ =>
          match env.dual1, env.dual2 with
          | some (some i1), some (some i2) =>
            ({ s with currentImg1 := some i1, currentImg2 := some i2,
                      currentAsset2 := some sec, isDual := true }, true)
          | _, _ => singleTail env s
        | [] => singleTail env s
      else singleTail env s

/-- A sequence of `refresh` calls, one environment per call: returns the
final state and each call's boolean result. -/
def refreshMany (cfg : Config) : List RefreshEnv → SlideshowState →
    SlideshowState × List Bool
  | [], s => (s, [])
  | e :: envs, s =>
    let r := do_refresh cfg e s
    let rest := refreshMany cfg envs r.1
    (rest.1, r.2 :: rest.2)

/-- A rendered output: either the dual-portrait composite canvas or a single
resized image (standing for the encoded JPEG bytes). -/
inductive RenderOutput where
  | dual (c : Canvas)
  | single (i : PImg)
deriving DecidableEq

/-- `generate_image` (image.py lines 450-460): `none` without a loaded image,
the side-by-side composite when dual with a second image, else the single
resize-and-encode. -/
def generate_image (s : SlideshowState) (target_w target_h : Nat) :
    Option RenderOutput :=
  match s.currentImg1 with
  | none => none
  | some img1 =>
    if s.isDual then
      match s.currentImg2 with
      | some img2 =>
        some (.dual (compose_side_by_side img1 img2 target_w target_h))
      | none => some (.single (resize_and_encode img1 target_w target_h))
    else some (.single (resize_and_encode img1 target_w target_h))

/-! Concrete fixtures used by the counterexamples and witnesses below. -/

/-- A landscape asset (4000×3000, upright orientation). -/
def assetLand : Asset := ⟨1, 4000, 3000, some 1⟩

/-- A portrait asset (3000×4000, upright orientation). -/
def assetPort : Asset := ⟨2, 3000, 4000, some 1⟩

/-- A second portrait asset. -/
def assetPort2 : Asset := ⟨3, 2000, 3000, none⟩

/-- A refill environment in which both remote sources return nothing, the
shuffles are the identity permutation and enrichment always succeeds
unchanged. -/
def emptyRefillEnv : RefillEnv :=
  ⟨[], fun _ => [], id, id, id, fun a => some a⟩

/-- A refill environment whose memories source returns one portrait asset. -/
def oneMemRefillEnv : RefillEnv :=
  ⟨[assetPort], fun _ => [], id, id, id, fun a => some a⟩

/-- Configuration with `mix_ratio = 0` and dual portrait disabled. -/
def cfgRecentOnly : Config := ⟨7, false, 0, 0, "all"⟩

/-- Configuration with `mix_ratio = 100`. -/
def cfgMemOnly : Config := ⟨7, false, 0, 100, "all"⟩

/-- A refresh environment whose downloads return bytes that fail to decode
(every decode raises). -/
def badDecodeEnv : RefreshEnv := ⟨emptyRefillEnv, none, none, some none⟩

/-- Manager state holding one pool asset and no loaded image. -/
def stateOneAsset : SlideshowState :=
  ⟨[assetLand], none, none, false, none, none, false⟩

/-- Manager state after a successful single-image refresh (an image is
loaded) whose pool has run empty. -/
def stateLoadedEmptyPool : SlideshowState :=
  ⟨[], some ⟨4000, 3000⟩, none, false, some assetLand, none, false⟩

/-! Helper lemmas about `_pop_from_pool`. -/

theorem popAux_fst (p : Asset → Bool) (k : Nat) (l : List Asset) :
    (popAux p k l).1 = (l.filter p).take k := by
  induction l generalizing k with
  | nil => cases k <;> simp [popAux]
  | cons a rest ih =>
    cases k with
    | zero => simp [popAux]
    | succ k =>
      by_cases h : p a
      · simp [popAux, h, List.filter_cons, ih]
      · simp [popAux, h, List.filter_cons, ih]

theorem popAux_snd_sublist (p : Asset → Bool) (k : Nat) (l : List Asset) :
    (popAux p k l).2.Sublist l := by
  induction l generalizing k with
  | nil => cases k <;> simp [popAux]
  | cons a rest ih =>
    cases k with
    | zero => simp [popAux]
    | succ k =>
      by_cases h : p a
      · simp only [popAux, h, if_true]
        exact (ih k).cons a
      · simp only [popAux, h, if_false]
        exact (ih (k + 1)).cons₂ a

theorem popAux_perm (p : Asset → Bool) (k : Nat) (l : List Asset) :
    l.Perm ((popAux p k l).1 ++ (popAux p k l).2) := by
  induction l generalizing k with
  | nil => cases k <;> simp [popAux]
  | cons a rest ih =>
    cases k with
    | zero => simp [popAux]
    | succ k =>
      by_cases h : p a
      · simpa [popAux, h] using (ih k).cons a
      · simp only [popAux, h, if_false]
        exact ((ih (k + 1)).cons a).trans List.perm_middle.symm

theorem pop_mem_of_mem_fst (pool : List Asset) (c : Nat) (b : Bool)
    (x : Asset) (hx : x ∈ (pop_from_pool pool c b).1) : x ∈ pool := by
  rw [pop_from_pool, popAux_fst] at hx
  exact List.mem_of_mem_filter (List.mem_of_mem_take hx)

theorem popMany_mem (ops : List (Nat × Bool)) :
    ∀ (pool : List Asset) (r : List Asset) (x : Asset),
      r ∈ (popMany pool ops).1 → x ∈ r → x ∈ pool := by
  induction ops with
  | nil => intro pool r x hr; simp [popMany] at hr
  | cons op rest ih =>
    rcases op with ⟨c, b⟩
    intro pool r x hr hx
    simp only [popMany, List.mem_cons] at hr
    rcases hr with rfl | hr
    · exact pop_mem_of_mem_fst pool c b x hx
    · exact (popAux_snd_sublist _ c pool).subset (ih _ r x hr hx)

/-- C5: `pop(count, predicate)` removes and returns the first at most `count`
records satisfying the predicate in pool order (the popped list is exactly
`take count` of the predicate-filtered pool, so an unmatchable predicate
yields `[]` without error); the remaining pool is a sublist of the original
(original relative order preserved); popped and remaining records partition
the pool; and on a duplicate-free pool a popped record is not in the
remaining pool and never reappears in any later pop on the same pool
instance. -/
theorem pop_from_pool_spec (pool : List Asset) (count : Nat)
    (portrait_only : Bool) (hnd : pool.Nodup) :
    (pop_from_pool pool count portrait_only).1 =
      (pool.filter (if portrait_only then is_portrait else fun _ => true)).take count
    ∧ (pop_from_pool pool count portrait_only).2.Sublist pool
    ∧ pool.Perm ((pop_from_pool pool count portrait_only).1 ++
        (pop_from_pool pool count portrait_only).2)
    ∧ (∀ x ∈ (pop_from_pool pool count portrait_only).1,
        x ∉ (pop_from_pool pool count portrait_only).2)
    ∧ ∀ (ops : List (Nat × Bool)) (r : List Asset),
        r ∈ (popMany (pop_from_pool pool count portrait_only).2 ops).1 →
        ∀ x ∈ (pop_from_pool pool count portrait_only).1, x ∉ r := by
  have hperm := popAux_perm
    (if portrait_only then is_portrait else fun _ => true) count pool
  have hnd' : ((pop_from_pool pool count portrait_only).1 ++
      (pop_from_pool pool count portrait_only).2).Nodup := hperm.nodup_iff.mp hnd
  have hdisj := (List.nodup_append.mp hnd').2.2
  refine ⟨popAux_fst _ count pool, popAux_snd_sublist _ count pool, hperm,
    fun x hx => hdisj hx, ?_⟩
  intro ops r hr x hx hxr
  exact hdisj hx (popMany_mem ops _ r x hr hxr)

/-- Witness for C5 at the concrete pool `[assetPort, assetLand, assetPort2]`
with `count = 1`, `portrait_only = true`: the first portrait is popped, the
rest keeps its order, the popped record is gone from the remaining pool and
from every batch of a later pop sequence. -/
theorem pop_from_pool_spec_witness :
    (pop_from_pool [assetPort, assetLand, assetPort2] 1 true).1 = [assetPort]
    ∧ (pop_from_pool [assetPort, assetLand, assetPort2] 1 true).2 =
        [assetLand, assetPort2]
    ∧ assetPort ∉ (pop_from_pool [assetPort, assetLand, assetPort2] 1 true).2
    ∧ assetPort ∉ (popMany (pop_from_pool [assetPort, assetLand, assetPort2] 1 true).2
        [(1, true), (1, false)]).1.head! := by
  have h := pop_from_pool_spec [assetPort, assetLand, assetPort2] 1 true (by decide)
  refine ⟨by decide, by decide, h.2.2.2.1 assetPort (by decide), ?_⟩
  exact h.2.2.2.2 [(1, true), (1, false)] _ (by decide) assetPort (by decide)

/-- C6: `is_portrait` is true exactly when both dimensions are positive and,
after swapping the axes for EXIF orientation codes 5-8, the effective height
strictly exceeds the effective width; checked also on the four concrete
records the claim lists. -/
theorem is_portrait_spec :
    (∀ a : Asset, is_portrait a =
      decide (0 < a.originalWidth ∧ 0 < a.originalHeight ∧
        specEffectiveWidth a < specEffectiveHeight a))
    ∧ is_portrait ⟨0, 3000, 4000, some 1⟩ = true
    ∧ is_portrait ⟨0, 4000, 3000, some 6⟩ = true
    ∧ is_portrait ⟨0, 4000, 3000, some 1⟩ = false
    ∧ is_portrait ⟨0, 0, 0, none⟩ = false := by
  refine ⟨?_, by decide, by decide, by decide, by decide⟩
  intro a
  simp only [is_portrait, specEffectiveWidth, specEffectiveHeight, specRotated]
  by_cases hwh : 0 < a.originalWidth ∧ 0 < a.originalHeight
  · by_cases hrot : (a.orientation.getD 0 == 5 || a.orientation.getD 0 == 6 ||
        a.orientation.getD 0 == 7 || a.orientation.getD 0 == 8) = true
    · simp only [hrot, if_pos hwh, if_true, decide_eq_decide]
      tauto
    · simp only [Bool.not_eq_true] at hrot
      simp only [hrot, if_pos hwh, if_false, Bool.false_eq_true, decide_eq_decide]
      tauto
  · simp only [if_neg hwh, decide_eq_false hwh, Bool.false_eq, decide_eq_false_iff_not]
    tauto

/-! Helper lemmas about `_refill_pool`. -/

theorem refill_pool_length_le (cfg : Config) (env : RefillEnv)
    (pool : List Asset) (h : pool.length ≤ MAX_POOL_SIZE) :
    (refill_pool cfg env pool).1.length ≤ MAX_POOL_SIZE := by
  unfold refill_pool
  split
  · exact h
  · split
    · exact h
    · split
      · simp
      · next hlen => exact Nat.le_of_not_lt hlen

theorem refill_pool_full_noop (cfg : Config) (env : RefillEnv)
    (pool : List Asset) (h : MAX_POOL_SIZE ≤ pool.length) :
    (refill_pool cfg env pool).1 = pool := by
  have hf : fetchCountOf pool ≤ 0 := by
    refine le_trans (min_le_right _ _) ?_
    simp only [sub_nonpos]
    exact_mod_cast h
  rw [refill_pool, if_pos hf]

theorem refillMany_length_le (cfg : Config) (envs : List RefillEnv) :
    ∀ pool : List Asset, pool.length ≤ MAX_POOL_SIZE →
      (refillMany cfg envs pool).length ≤ MAX_POOL_SIZE := by
  induction envs with
  | nil => intro pool h; exact h
  | cons e envs ih =>
    intro pool h
    exact ih _ (refill_pool_length_le cfg e pool h)

/-- The trace of a refill always records `fetch_count` as computed from the
pool it was invoked on. -/
theorem refill_pool_trace_fetch (cfg : Config) (env : RefillEnv)
    (pool : List Asset) :
    (refill_pool cfg env pool).2.fetchCount = fetchCountOf pool := by
  unfold refill_pool
  split
  · rfl
  · split
    · rfl
    · split <;> rfl

/-- The whole trace of a refill that found space (`fetch_count > 0`). -/
theorem refill_pool_trace (cfg : Config) (env : RefillEnv)
    (pool : List Asset) (h : ¬ fetchCountOf pool ≤ 0) :
    (refill_pool cfg env pool).2 = traceOf cfg env pool := by
  unfold refill_pool
  rw [if_neg h]
  split
  · rfl
  · split <;> rfl

/-- C4: starting from a pool within capacity, the pool stays within
`MAX_POOL_SIZE` after every sequence of refills, and a refill invoked on a
full pool (`fetch_count <= 0`) leaves the pool unchanged. -/
theorem pool_size_bounded (cfg : Config) (env : RefillEnv)
    (envs : List RefillEnv) (pool : List Asset)
    (h : pool.length ≤ MAX_POOL_SIZE) :
    (refillMany cfg (env :: envs) pool).length ≤ MAX_POOL_SIZE
    ∧ (MAX_POOL_SIZE ≤ pool.length → (refill_pool cfg env pool).1 = pool) := by
  exact ⟨refillMany_length_le cfg (env :: envs) pool h,
    fun hfull => refill_pool_full_noop cfg env pool hfull⟩

/-- Witness for C4 at a full pool of exactly `MAX_POOL_SIZE` records: one
more refill is bounded and is a no-op. -/
theorem pool_size_bounded_witness :
    (refillMany cfgRecentOnly [oneMemRefillEnv]
        (List.replicate 200 assetLand)).length ≤ MAX_POOL_SIZE
    ∧ (refill_pool cfgRecentOnly oneMemRefillEnv
        (List.replicate 200 assetLand)).1 = List.replicate 200 assetLand := by
  have h := pool_size_bounded cfgRecentOnly oneMemRefillEnv []
    (List.replicate 200 assetLand) (by rw [List.length_replicate]; exact le_rfl)
  exact ⟨h.1, h.2 (by rw [List.length_replicate]; exact le_rfl)⟩

/-- C1 counterexample: with `mix_ratio = 100`, an empty pool
(`fetch_count = 100`, `memory_count = 100`) and a memories source that
returns no assets, the code requests `100` recent-search items — not the
`fetch_count - memory_count = 0` the claim asserts regardless of what the
memories source returns. -/
theorem refill_split_cex :
    (refill_pool cfgMemOnly emptyRefillEnv []).2.fetchCount = 100
    ∧ (refill_pool cfgMemOnly emptyRefillEnv []).2.memCount = 100
    ∧ (refill_pool cfgMemOnly emptyRefillEnv []).2.recentRequested = 100
    ∧ (refill_pool cfgMemOnly emptyRefillEnv []).2.recentRequested ≠
        (refill_pool cfgMemOnly emptyRefillEnv []).2.fetchCount.toNat -
        (refill_pool cfgMemOnly emptyRefillEnv []).2.memCount := by
  refine ⟨by decide, by decide, by decide, by decide⟩

/-- C1 amended: when a refill finds space (`fetch_count > 0`), it computes
`memory_count = floor(mix_ratio * fetch_count / 100)` and requests memories
iff `memory_count > 0`; the recent-search request is
`fetch_count - min(memory_count, number of memory assets actually
returned)` — the slots a short memories result leaves open are refilled
from recent search, so `mix_ratio = 0` requests zero memories, while
`mix_ratio = 100` requests zero recent-search items only when the memories
source returns at least `fetch_count` assets. -/
theorem refill_split_amended (cfg : Config) (env : RefillEnv)
    (pool : List Asset)
    (hshuffle : (env.shuffleMem env.memAssets).length = env.memAssets.length)
    (hfetch : 0 < (refill_pool cfg env pool).2.fetchCount) :
    (refill_pool cfg env pool).2.memCount =
      cfg.mixRatio * (refill_pool cfg env pool).2.fetchCount.toNat / 100
    ∧ (refill_pool cfg env pool).2.memRequested =
        decide (0 < (refill_pool cfg env pool).2.memCount)
    ∧ (refill_pool cfg env pool).2.recentRequested =
        (refill_pool cfg env pool).2.fetchCount.toNat -
        min (refill_pool cfg env pool).2.memCount env.memAssets.length
    ∧ (cfg.mixRatio = 0 → (refill_pool cfg env pool).2.memRequested = false)
    ∧ (cfg.mixRatio = 100 →
        (refill_pool cfg env pool).2.memCount =
          (refill_pool cfg env pool).2.fetchCount.toNat
        ∧ ((refill_pool cfg env pool).2.fetchCount.toNat ≤
              env.memAssets.length →
            (refill_pool cfg env pool).2.recentRequested = 0)) := by
  rw [refill_pool_trace_fetch] at hfetch
  have hneg : ¬ fetchCountOf pool ≤ 0 := not_le.mpr hfetch
  rw [refill_pool_trace cfg env pool hneg]
  have hmemlen : (memAssetsOf cfg env pool).length =
      min (memCountOf cfg pool) env.memAssets.length := by
    unfold memAssetsOf
    split
    · next hmc => rw [List.length_take, hshuffle]
    · next hmc =>
      have : memCountOf cfg pool = 0 := Nat.eq_zero_of_not_pos hmc
      simp [this]
  refine ⟨rfl, rfl, ?_, ?_, ?_⟩
  · show recentCountOf cfg env pool =
      (fetchCountOf pool).toNat - min (memCountOf cfg pool) env.memAssets.length
    unfold recentCountOf
    rw [hmemlen]
  · intro h0
    show decide (0 < memCountOf cfg pool) = false
    simp [memCountOf, h0]
  · intro h100
    have hmc : memCountOf cfg pool = (fetchCountOf pool).toNat := by
      unfold memCountOf
      rw [h100]
      exact Nat.mul_div_cancel_left _ (by norm_num)
    refine ⟨hmc, ?_⟩
    intro hle
    have hle' : (fetchCountOf pool).toNat ≤ env.memAssets.length := hle
    show recentCountOf cfg env pool = 0
    unfold recentCountOf
    rw [hmemlen, hmc, min_eq_left hle', Nat.sub_self]

/-- Witness for C1 (amended) at `mix_ratio = 100`, a pool of 199 records
(`fetch_count = 1`) and a memories source returning one asset: one memory
slot is computed, memories are requested, and zero recent-search items are
requested. -/
theorem refill_split_amended_witness :
    (refill_pool cfgMemOnly oneMemRefillEnv
        (List.replicate 199 assetLand)).2.memCount = 1
    ∧ (refill_pool cfgMemOnly oneMemRefillEnv
        (List.replicate 199 assetLand)).2.memRequested = true
    ∧ (refill_pool cfgMemOnly oneMemRefillEnv
        (List.replicate 199 assetLand)).2.recentRequested = 0 := by
  have hf : (refill_pool cfgMemOnly oneMemRefillEnv
      (List.replicate 199 assetLand)).2.fetchCount = 1 := by
    rw [refill_pool_trace_fetch]
    unfold fetchCountOf
    rw [List.length_replicate]
    decide
  have h := refill_split_amended cfgMemOnly oneMemRefillEnv
    (List.replicate 199 assetLand) (by decide) (by rw [hf]; decide)
  have hmc : (refill_pool cfgMemOnly oneMemRefillEnv
      (List.replicate 199 assetLand)).2.memCount = 1 := by
    rw [h.1, hf]; decide
  have h100 := h.2.2.2.2 (by decide)
  refine ⟨hmc, ?_, h100.2 (by rw [hf]; decide)⟩
  rw [h.2.1, hmc]
  decide

/-! Helper lemmas about `_do_refresh` and `generate_image`. -/

/-- Every refresh either succeeds or ends with no loaded image: the previous
images are closed and cleared at the top of `_do_refresh` and reassigned
only on the paths that return `True`. -/
theorem do_refresh_result (cfg : Config) (env : RefreshEnv)
    (s : SlideshowState) :
    (do_refresh cfg env s).2 = true
    ∨ ((do_refresh cfg env s).1.currentImg1 = none
        ∧ (do_refresh cfg env s).1.currentImg2 = none) := by
  simp only [do_refresh, singleTail]
  repeat' split
  all_goals simp

theorem do_refresh_false_imgs (cfg : Config) (env : RefreshEnv)
    (s : SlideshowState) (h : (do_refresh cfg env s).2 = false) :
    (do_refresh cfg env s).1.currentImg1 = none
    ∧ (do_refresh cfg env s).1.currentImg2 = none := by
  rcases do_refresh_result cfg env s with ht | hn
  · rw [ht] at h
    exact absurd h (by simp)
  · exact hn

theorem generate_image_none (s : SlideshowState) (w h : Nat)
    (h1 : s.currentImg1 = none) : generate_image s w h = none := by
  unfold generate_image
  rw [h1]

/-- As long as every refresh in a sequence fails, no image gets loaded. -/
theorem refreshMany_imgs_none (cfg : Config) (envs : List RefreshEnv) :
    ∀ s : SlideshowState, s.currentImg1 = none →
      (∀ b ∈ (refreshMany cfg envs s).2, b = false) →
      (refreshMany cfg envs s).1.currentImg1 = none := by
  induction envs with
  | nil => intro s h1 _; exact h1
  | cons e envs ih =>
    intro s h1 hall
    simp only [refreshMany, List.mem_cons] at hall ⊢
    have hfalse : (do_refresh cfg e s).2 = false :=
      hall _ (Or.inl rfl)
    have himg := (do_refresh_false_imgs cfg e s hfalse).1
    exact ih _ himg (fun b hb => hall b (Or.inr hb))

/-- C2 (divergence witnessed): refreshing a one-asset pool whose download
returns undecodable bytes returns `False` without raising, leaves
`generate_image` returning `None` for every resolution — but `is_available`
stays `True`, because `_do_refresh` already set `_pool_empty = False` when
it saw the non-empty pool, contradicting the claim (and `is_available`'s own
docstring). -/
theorem decode_failure_divergence :
    (do_refresh cfgRecentOnly badDecodeEnv stateOneAsset).2 = false
    ∧ is_available (do_refresh cfgRecentOnly badDecodeEnv stateOneAsset).1 = true
    ∧ ∀ w h : Nat,
        generate_image (do_refresh cfgRecentOnly badDecodeEnv stateOneAsset).1
          w h = none := by
  refine ⟨by decide, by decide, ?_⟩
  intro w h
  exact generate_image_none _ w h (by decide)

/-- C3 counterexample: a state holding an image from a previous successful
refresh renders output; a subsequent refresh that fails for a
non-decode reason (pool exhausted after an empty refill) returns `False` and
afterwards rendering yields `None` — the previously loaded image was NOT
preserved, because `_do_refresh` closes and clears the loaded images before
doing anything else. -/
theorem failed_refresh_preserves_cex :
    generate_image stateLoadedEmptyPool 1920 1080 ≠ none
    ∧ (do_refresh cfgRecentOnly badDecodeEnv stateLoadedEmptyPool).2 = false
    ∧ generate_image
        (do_refresh cfgRecentOnly badDecodeEnv stateLoadedEmptyPool).1
        1920 1080 = none := by
  refine ⟨by decide, by decide, by decide⟩

/-- C3 amended: every refresh releases the previously loaded images first,
so after a refresh that fails for any reason (pool exhausted, download
failure, or decode failure) no loaded image remains — the images from the
last successful refresh are not preserved. -/
theorem failed_refresh_clears_images (cfg : Config) (env : RefreshEnv)
    (s : SlideshowState) (h : (do_refresh cfg env s).2 = false) :
    (do_refresh cfg env s).1.currentImg1 = none
    ∧ (do_refresh cfg env s).1.currentImg2 = none :=
  do_refresh_false_imgs cfg env s h

/-- Witness for C3 (amended) at the concrete failing refresh of
`failed_refresh_preserves_cex`. -/
theorem failed_refresh_clears_images_witness :
    (do_refresh cfgRecentOnly badDecodeEnv stateLoadedEmptyPool).1.currentImg1
      = none
    ∧ (do_refresh cfgRecentOnly badDecodeEnv
        stateLoadedEmptyPool).1.currentImg2 = none :=
  failed_refresh_clears_images cfgRecentOnly badDecodeEnv stateLoadedEmptyPool
    (by decide)

/-- C10: whenever `refresh()` returns `False`, no loaded image remains:
`generate_image` returns `None` for every target resolution, and it keeps
returning `None` after any further sequence of refreshes that all return
`False` (i.e. until some later refresh returns `True`). -/
theorem failed_refresh_renders_none (cfg : Config) (env : RefreshEnv)
    (s : SlideshowState) (h : (do_refresh cfg env s).2 = false) :
    (∀ w h' : Nat,
      generate_image (do_refresh cfg env s).1 w h' = none)
    ∧ ∀ envs : List RefreshEnv,
        (∀ b ∈ (refreshMany cfg envs (do_refresh cfg env s).1).2, b = false) →
        ∀ w h' : Nat,
          generate_image (refreshMany cfg envs (do_refresh cfg env s).1).1
            w h' = none := by
  have himg := do_refresh_false_imgs cfg env s h
  refine ⟨fun w h' => generate_image_none _ w h' himg.1, ?_⟩
  intro envs hall w h'
  exact generate_image_none _ w h'
    (refreshMany_imgs_none cfg envs _ himg.1 hall)

/-- Witness for C10 at a concrete failing refresh (decode failure) followed
by one more failing refresh (pool exhausted). -/
theorem failed_refresh_renders_none_witness :
    generate_image (do_refresh cfgRecentOnly badDecodeEnv stateOneAsset).1
      640 480 = none
    ∧ generate_image (refreshMany cfgRecentOnly [badDecodeEnv]
        (do_refresh cfgRecentOnly badDecodeEnv stateOneAsset).1).1
        640 480 = none := by
  have h := failed_refresh_renders_none cfgRecentOnly badDecodeEnv
    stateOneAsset (by decide)
  exact ⟨h.1 640 480, h.2 [badDecodeEnv] (by decide) 640 480⟩

/-! Helper lemmas about the renderer. -/

theorem pyTrunc_of_nonneg (q : ℚ) (h : 0 ≤ q) : pyTrunc q = ⌊q⌋ := by
  unfold pyTrunc
  exact if_pos h

/-- The crop always returns an image of exactly the requested width. -/
theorem rcc_w (img : PImg) (target_w target_h : Nat) :
    (resize_and_center_crop img target_w target_h).w = target_w := by
  unfold resize_and_center_crop pilCrop
  simp

/-- The crop always returns an image of exactly the requested height. -/
theorem rcc_h (img : PImg) (target_w target_h : Nat) :
    (resize_and_center_crop img target_w target_h).h = target_h := by
  unfold resize_and_center_crop pilCrop
  simp

/-- For positive source and target dimensions the scaled height covers the
target height (the cover-scaling invariant that makes the vertical overflow
nonnegative). -/
theorem le_rccNewH (img : PImg) (target_w target_h : Nat)
    (hw : 0 < img.w) (hh : 0 < img.h) (htw : 0 < target_w)
    (hth : 0 < target_h) :
    (target_h : Int) ≤ rccNewH img target_w target_h := by
  have hw' : (0 : ℚ) < (img.w : ℚ) := by exact_mod_cast hw
  have hh' : (0 : ℚ) < (img.h : ℚ) := by exact_mod_cast hh
  have hth' : (0 : ℚ) < (target_h : ℚ) := by exact_mod_cast hth
  unfold rccNewH rccScale
  by_cases hc : ((target_w : ℚ) / (target_h : ℚ)) < ((img.w : ℚ) / (img.h : ℚ))
  · rw [if_pos hc]
    have heq : (img.h : ℚ) * ((target_h : ℚ) / (img.h : ℚ)) = (target_h : ℚ) := by
      field_simp
    rw [heq, pyTrunc_of_nonneg _ (le_of_lt hth'), Int.floor_natCast]
  · rw [if_neg hc]
    push_neg at hc
    have hmul : (img.w : ℚ) * (target_h : ℚ) ≤ (target_w : ℚ) * (img.h : ℚ) :=
      (div_le_div_iff₀ hh' hth').mp hc
    have harg : (target_h : ℚ) ≤ (img.h : ℚ) * ((target_w : ℚ) / (img.w : ℚ)) := by
      have h1 : (target_h : ℚ) ≤ (img.h : ℚ) * (target_w : ℚ) / (img.w : ℚ) := by
        rw [le_div_iff₀ hw']
        nlinarith [hmul]
      rwa [mul_div_assoc] at h1
    rw [pyTrunc_of_nonneg _ (le_trans (le_of_lt hth') harg)]
    refine Int.le_floor.mpr ?_
    exact_mod_cast harg

/-- C7: for positive source and target dimensions, resize-and-center-crop
yields exactly the target size; the scale factor is
`target_h / src_h` when the source aspect ratio exceeds the target aspect
ratio and `target_w / src_w` otherwise; the crop is horizontally centered
(`left = (new_w - target_w) // 2`) and its top edge is
`floor((scaled_h - target_h) * 0.3)` (the code's truncation toward zero
equals floor because the vertical overflow is nonnegative). -/
theorem resize_and_center_crop_spec (img : PImg) (target_w target_h : Nat)
    (hw : 0 < img.w) (hh : 0 < img.h) (htw : 0 < target_w)
    (hth : 0 < target_h) :
    (resize_and_center_crop img target_w target_h).w = target_w
    ∧ (resize_and_center_crop img target_w target_h).h = target_h
    ∧ rccScale img target_w target_h =
        (if ((target_w : ℚ) / (target_h : ℚ)) < ((img.w : ℚ) / (img.h : ℚ))
         then (target_h : ℚ) / (img.h : ℚ)
         else (target_w : ℚ) / (img.w : ℚ))
    ∧ rccLeft img target_w target_h =
        Int.fdiv (rccNewW img target_w target_h - target_w) 2
    ∧ rccTop img target_w target_h =
        ⌊((rccNewH img target_w target_h - target_h : Int) : ℚ) * (3 / 10)⌋ := by
  refine ⟨rcc_w img target_w target_h, rcc_h img target_w target_h, rfl, rfl, ?_⟩
  unfold rccTop
  apply pyTrunc_of_nonneg
  have hle := le_rccNewH img target_w target_h hw hh htw hth
  have h0 : (0 : Int) ≤ rccNewH img target_w target_h - target_h := by omega
  have h0' : (0 : ℚ) ≤ ((rccNewH img target_w target_h - target_h : Int) : ℚ) := by
    exact_mod_cast h0
  have h3 : (0 : ℚ) ≤ 3 / 10 := by norm_num
  exact mul_nonneg h0' h3

/-- Witness for C7 at a 3000×4000 portrait source and a 1920×1080 target. -/
theorem resize_and_center_crop_spec_witness :
    (resize_and_center_crop ⟨3000, 4000⟩ 1920 1080).w = 1920
    ∧ (resize_and_center_crop ⟨3000, 4000⟩ 1920 1080).h = 1080
    ∧ rccScale ⟨3000, 4000⟩ 1920 1080 =
        (if (((1920 : Nat) : ℚ) / ((1080 : Nat) : ℚ)) <
            (((3000 : Nat) : ℚ) / ((4000 : Nat) : ℚ))
         then ((1080 : Nat) : ℚ) / ((4000 : Nat) : ℚ)
         else ((1920 : Nat) : ℚ) / ((3000 : Nat) : ℚ))
    ∧ rccLeft ⟨3000, 4000⟩ 1920 1080 =
        Int.fdiv (rccNewW ⟨3000, 4000⟩ 1920 1080 - ((1920 : Nat) : Int)) 2
    ∧ rccTop ⟨3000, 4000⟩ 1920 1080 =
        ⌊((rccNewH ⟨3000, 4000⟩ 1920 1080 - ((1080 : Nat) : Int) : Int) : ℚ) *
          (3 / 10)⌋ := by
  exact resize_and_center_crop_spec ⟨3000, 4000⟩ 1920 1080
    (by norm_num) (by norm_num) (by norm_num) (by norm_num)

/-- C8: the dual-portrait composite canvas is exactly the target size; each
half is rendered by the same resize-and-center-crop rule against
`(target_w // 2, target_h)` — so each pasted half is exactly `target_w // 2`
wide and `target_h` tall — with the left image pasted at x = 0 and the right
image at x = `target_w // 2`. -/
theorem compose_side_by_side_spec (img1 img2 : PImg) (target_w target_h : Nat)
    (htw : 0 < target_w) (hth : 0 < target_h) :
    (compose_side_by_side img1 img2 target_w target_h).w = target_w
    ∧ (compose_side_by_side img1 img2 target_w target_h).h = target_h
    ∧ (compose_side_by_side img1 img2 target_w target_h).pastes =
        [(resize_and_center_crop img1 (target_w / 2) target_h, 0, 0),
         (resize_and_center_crop img2 (target_w / 2) target_h,
          ((target_w / 2 : Nat) : Int), 0)]
    ∧ (resize_and_center_crop img1 (target_w / 2) target_h).w = target_w / 2
    ∧ (resize_and_center_crop img2 (target_w / 2) target_h).w = target_w / 2
    ∧ (resize_and_center_crop img1 (target_w / 2) target_h).h = target_h
    ∧ (resize_and_center_crop img2 (target_w / 2) target_h).h = target_h := by
  exact ⟨rfl, rfl, rfl, rcc_w img1 _ _, rcc_w img2 _ _, rcc_h img1 _ _,
    rcc_h img2 _ _⟩

/-- Witness for C8 at two portrait sources and a 1920×1080 target. -/
theorem compose_side_by_side_spec_witness :
    (compose_side_by_side ⟨3000, 4000⟩ ⟨2000, 3000⟩ 1920 1080).w = 1920
    ∧ (compose_side_by_side ⟨3000, 4000⟩ ⟨2000, 3000⟩ 1920 1080).h = 1080
    ∧ (compose_side_by_side ⟨3000, 4000⟩ ⟨2000, 3000⟩ 1920 1080).pastes =
        [(resize_and_center_crop ⟨3000, 4000⟩ 960 1080, 0, 0),
         (resize_and_center_crop ⟨2000, 3000⟩ 960 1080, 960, 0)]
    ∧ (resize_and_center_crop ⟨3000, 4000⟩ 960 1080).w = 960
    ∧ (resize_and_center_crop ⟨2000, 3000⟩ 960 1080).w = 960 := by
  have h := compose_side_by_side_spec ⟨3000, 4000⟩ ⟨2000, 3000⟩ 1920 1080
    (by norm_num) (by norm_num)
  exact ⟨h.1, h.2.1, h.2.2.1, h.2.2.2.1, h.2.2.2.2.1⟩

end ImmichSlideshow
